import Mathlib

/-!
Verification of the MemberCard batch card generator (src/app.py).

Python strings are embedded as `List Char`; the relevant library
functions (`str.isalnum`, `str.isdigit`, `str.strip`, `str.ljust`,
slicing, `re.match`, `re.sub`) are translated to explicit list
operations.  Image drawing and SMTP delivery are external capabilities;
their success or failure is supplied by an `Env` oracle, while the
control flow around them (which text is drawn, which filename is used,
which exceptions propagate) is embedded faithfully.
-/

/-- Python `c.isalnum()` restricted to the ASCII range that the
identifiers use: a letter or a digit. -/
def pyIsAlnum (c : Char) : Bool := c.isAlpha || c.isDigit

/-- Python `c.isdigit()` on ASCII: `'0'..'9'`. -/
def pyIsDigit (c : Char) : Bool := c.isDigit

/-- Python whitespace stripped by `str.strip()`. -/
def pyIsSpace (c : Char) : Bool :=
  c = ' ' || c = '\t' || c = '\n' || c = '\r' || c = Char.ofNat 11 || c = Char.ofNat 12

/-- Python `s.strip()`: drop whitespace from both ends. -/
def pyStrip (s : List Char) : List Char :=
  ((s.dropWhile pyIsSpace).reverse.dropWhile pyIsSpace).reverse

/-- Python `s.ljust(w, fill)`: pad on the right up to width `w`
(a no-op when `s` is already at least that long). -/
def ljust (s : List Char) (w : Nat) (fill : Char) : List Char :=
  s ++ List.replicate (w - s.length) fill

/-- `cleaned = ''.join(c for c in str(card_id) if c.isalnum())`
(src/app.py line 71). -/
def clean (s : List Char) : List Char := s.filter pyIsAlnum

/-- The long-form branch of `format_card_id` (src/app.py lines 73-85):
prefix forced to "AL001"; category and digit source depend on whether
the cleaned string starts with "AL001" or with "STE". -/
def formatLong (cleaned : List Char) : List Char :=
  let category :=
    if "AL001".toList.isPrefixOf cleaned then
      (if 8 ≤ cleaned.length then (cleaned.drop 5).take 3 else "XXX".toList)
    else cleaned.take 3
  let digits :=
    if "AL001".toList.isPrefixOf cleaned then (cleaned.drop 8).filter pyIsDigit
    else (cleaned.drop 3).filter pyIsDigit
  let numbers := ljust (digits.take 7) 7 '0'
  let sfx := ljust ((digits.drop 7).take 4) 4 '0'
  "AL001/".toList ++ category ++ "-".toList ++ numbers ++ "/".toList ++ sfx

/-- The default branch of `format_card_id` (src/app.py lines 87-91):
3-character letter field padded with 'X', 11 digits grouped 4/4/3. -/
def formatDefault (cleaned : List Char) : List Char :=
  let chars := ljust (cleaned.take 3) 3 'X'
  let digits := cleaned.filter pyIsDigit
  let numbers := ljust (digits.take 11) 11 '0'
  chars ++ "-".toList ++ numbers.take 4 ++ " ".toList ++
    ((numbers.drop 4).take 4) ++ " ".toList ++ ((numbers.drop 8).take 3)

/-- `format_card_id` (src/app.py lines 70-91): clean the identifier,
then dispatch on whether the cleaned form starts with "AL001" or "STE". -/
def format_card_id (card_id : List Char) : List Char :=
  let cleaned := clean card_id
  if "AL001".toList.isPrefixOf cleaned || "STE".toList.isPrefixOf cleaned then
    formatLong cleaned
  else
    formatDefault cleaned

/-- Characters removed by `sanitize_filename`'s regular expression
`[\\/*?:"<>|\n]` (src/app.py line 67). -/
def badFilenameChar (c : Char) : Bool :=
  c = '\\' || c = '/' || c = '*' || c = '?' || c = ':' || c = '"' ||
    c = '<' || c = '>' || c = '|' || c = '\n'

/-- `sanitize_filename` (src/app.py lines 65-67): replace spaces with
underscores, delete the path-hostile characters, keep at most 100
characters. -/
def sanitize_filename (name : List Char) : List Char :=
  (((name.map fun c => if c = ' ' then '_' else c).filter
      fun c => !(badFilenameChar c)).take 100)

/-- The regular expression `^([A-Za-z]{3})(\d+)$` of src/app.py
line 197: exactly three ASCII letters immediately followed by one or
more digits and nothing else. -/
def lettersDigitsMatch (s : List Char) : Bool :=
  decide (4 ≤ s.length) && (s.take 3).all Char.isAlpha && (s.drop 3).all Char.isDigit

/-- The card display logic of src/app.py lines 193-201: delegate to
`format_card_id` only when the raw (stripped) identifier starts with
"AL001"; otherwise split a "3 letters + digits" identifier with a
space, or fall through to the identifier unchanged. -/
def resolveDisplayText (card : List Char) : List Char :=
  if "AL001".toList.isPrefixOf card then
    format_card_id card
  else if lettersDigitsMatch card then
    (card.take 3) ++ " ".toList ++ (card.drop 3)
  else
    card

/-- One spreadsheet row after field extraction (src/app.py lines
172-183): the Name and Card cell contents and the optional Email
address.  The Date and VIP cells only choose overlay text and the
template image and play no role in the verified properties. -/
structure Row where
  name : List Char
  card : List Char
  email : Option (List Char)
deriving DecidableEq

/-- A rendered card artifact: the basename it is saved under, the
identifier text drawn in the policy-number zone, and the name drawn. -/
structure Artifact where
  filename : List Char
  displayText : List Char
  drawnName : List Char
deriving DecidableEq

/-- A log line recorded by the pipeline (level flag and message). -/
structure LogEntry where
  isError : Bool
  msg : List Char
deriving DecidableEq

/-- The exception raised when an image operation (template open or
save) fails for a row; src/app.py has no handler for it inside
`generate_cards_from_df`, so it propagates. -/
structure RenderError where
  rowIndex : Nat
deriving DecidableEq

/-- The external outcomes for one batch: whether the image operations
for row `i` succeed, and the result of the SMTP block for row `i`. -/
structure Env where
  renderOk : Nat → Bool
  smtpResult : Nat → Except (List Char) Unit

/-- `send_email_with_attachment` (src/app.py lines 94-162): the message
is built, and the whole SMTP session is wrapped in
`try ... except Exception`, so the function returns normally whatever
the SMTP outcome; it only logs.  The total return type (no `Except`)
embeds "failures are swallowed". -/
def send_email_with_attachment (smtpOutcome : Except (List Char) Unit)
    (toEmail : List Char) : List LogEntry :=
  match smtpOutcome with
  | .ok _ => [⟨false, "Email sent to ".toList ++ toEmail⟩]
  | .error e => [⟨true, "SMTP send failed: ".toList ++ e⟩]

/-- The body of the row loop of `generate_cards_from_df` (src/app.py
lines 171-217) for row `row` at position `i`: strip the Card cell,
resolve the display text, save under the sanitized filename, then
notify when an email address is present.  An image failure is an
uncaught exception, modelled as `.error`. -/
def processRow (env : Env) (i : Nat) (row : Row) :
    Except RenderError (Artifact × List LogEntry) :=
  let card := pyStrip row.card
  if env.renderOk i then
    let displayText := resolveDisplayText card
    let filename :=
      sanitize_filename row.name ++ "_".toList ++ sanitize_filename card ++ ".png".toList
    let logs :=
      match row.email with
      | some e => send_email_with_attachment (env.smtpResult i) e
      | none => []
    .ok (⟨filename, displayText, row.name⟩, logs)
  else
    .error ⟨i⟩

/-- The row loop of `generate_cards_from_df` from position `i` on:
rows are processed strictly in order and the first uncaught image
exception aborts the remainder of the batch. -/
def generateGo (env : Env) : Nat → List Row →
    Except RenderError (List Artifact × List LogEntry)
  | _, [] => .ok ([], [])
  | i, r :: rs =>
    match processRow env i r with
    | .error e => .error e
    | .ok (a, logs) =>
      match generateGo env (i + 1) rs with
      | .error e => .error e
      | .ok (arts, moreLogs) => .ok (a :: arts, logs ++ moreLogs)

/-- `generate_cards_from_df` (src/app.py lines 165-217). -/
def generate_cards_from_df (env : Env) (rows : List Row) :
    Except RenderError (List Artifact × List LogEntry) :=
  generateGo env 0 rows

/-- The artifact files a batch leaves behind, forgetting the logs. -/
def artifactsOf (x : Except RenderError (List Artifact × List LogEntry)) :
    Except RenderError (List Artifact) :=
  x.map Prod.fst

/-- An environment in which every image operation and every SMTP
session succeeds. -/
def envOk : Env := ⟨fun _ => true, fun _ => .ok ()⟩

/-- An environment in which rendering succeeds but every SMTP session
raises. -/
def envSmtpFail : Env := ⟨fun _ => true, fun _ => .error "connection refused".toList⟩

/-- An environment in which the image operations for row 0 raise and
all later rows would render fine. -/
def envRow0Fails : Env := ⟨fun i => i != 0, fun _ => .ok ()⟩

/-- The long-form output template `AL001/CCC-NNNNNNN/SSSS`: a
3-character category, an exactly-7-digit numbers field and an
exactly-4-digit suffix. -/
def longShape (r : List Char) : Prop :=
  ∃ cat num sfx : List Char,
    cat.length = 3 ∧ num.length = 7 ∧ (∀ c ∈ num, pyIsDigit c = true) ∧
    sfx.length = 4 ∧ (∀ c ∈ sfx, pyIsDigit c = true) ∧
    r = "AL001/".toList ++ cat ++ "-".toList ++ num ++ "/".toList ++ sfx

/-- The default-family output template `CCC-NNNN NNNN NNN`: a
3-character letter field and digit groups of 4, 4 and 3. -/
def defaultShape (r : List Char) : Prop :=
  ∃ pfx g1 g2 g3 : List Char,
    pfx.length = 3 ∧
    g1.length = 4 ∧ (∀ c ∈ g1, pyIsDigit c = true) ∧
    g2.length = 4 ∧ (∀ c ∈ g2, pyIsDigit c = true) ∧
    g3.length = 3 ∧ (∀ c ∈ g3, pyIsDigit c = true) ∧
    r = pfx ++ "-".toList ++ g1 ++ " ".toList ++ g2 ++ " ".toList ++ g3

example : format_card_id "".toList = "XXX-0000 0000 000".toList := by decide
example : format_card_id "STE12345690123".toList = "AL001/STE-1234569/0123".toList := by decide
example : format_card_id "AL0019997890012345".toList = "AL001/999-7890012/3450".toList := by decide
example : resolveDisplayText "ABC123".toList = "ABC 123".toList := by decide
example : resolveDisplayText "STE12345690123".toList = "STE 12345690123".toList := by decide
example :
    processRow envOk 0 ⟨"John Doe".toList, "STE12345690123".toList, none⟩ =
      .ok (⟨"John_Doe_STE12345690123.png".toList, "STE 12345690123".toList,
        "John Doe".toList⟩, []) := by rfl
example :
    generate_cards_from_df envRow0Fails
      [⟨"Alice".toList, "ABC123".toList, none⟩, ⟨"Bob".toList, "XYZ789".toList, none⟩] =
      .error ⟨0⟩ := by rfl

/-! ## Helper lemmas -/

lemma clean_clean (s : List Char) : clean (clean s) = clean s := by
  simp [clean, List.filter_filter, Bool.and_self]

lemma ljust_length {s : List Char} {w : Nat} (f : Char) (h : s.length ≤ w) :
    (ljust s w f).length = w := by
  simp only [ljust, List.length_append, List.length_replicate]
  omega

lemma mem_ljust {c : Char} {s : List Char} {w : Nat} {f : Char}
    (h : c ∈ ljust s w f) : c ∈ s ∨ c = f := by
  rcases List.mem_append.mp h with h | h
  · exact .inl h
  · exact .inr (List.eq_of_mem_replicate h)

lemma isPrefixOf_exists {p s : List Char} (h : p.isPrefixOf s = true) :
    ∃ t, p ++ t = s := by
  induction p generalizing s with
  | nil => exact ⟨s, rfl⟩
  | cons a as ih =>
    cases s with
    | nil => exact absurd h (by simp [List.isPrefixOf])
    | cons b bs =>
      simp only [List.isPrefixOf, Bool.and_eq_true, beq_iff_eq] at h
      obtain ⟨hab, hrest⟩ := h
      obtain ⟨t, ht⟩ := ih hrest
      exact ⟨t, by rw [List.cons_append, hab, ht]⟩

lemma isPrefixOf_append (p t : List Char) : p.isPrefixOf (p ++ t) = true := by
  induction p with
  | nil => simp [List.isPrefixOf]
  | cons a as ih => simp [List.isPrefixOf, ih]

lemma isPrefixOf_length_le {p s : List Char} (h : p.isPrefixOf s = true) :
    p.length ≤ s.length := by
  obtain ⟨t, ht⟩ := isPrefixOf_exists h
  rw [← ht, List.length_append]
  omega

lemma ljust_take_length (l : List Char) {n w : Nat} (f : Char) (h : n ≤ w) :
    (ljust (l.take n) w f).length = w := by
  apply ljust_length
  rw [List.length_take]
  omega

lemma filter_digits (ds : List Char) :
    ∀ x ∈ ds.filter pyIsDigit, pyIsDigit x = true :=
  fun _ hx => (List.mem_filter.mp hx).2

lemma mem_ljust_digits {c : Char} {l ds : List Char} {w : Nat}
    (hsub : l ⊆ ds) (hds : ∀ x ∈ ds, pyIsDigit x = true)
    (h : c ∈ ljust l w '0') : pyIsDigit c = true := by
  rcases mem_ljust h with h | h
  · exact hds c (hsub h)
  · subst h; decide

lemma clean_of_al001 {s : List Char} (h : ("AL001".toList).isPrefixOf s = true) :
    ("AL001".toList).isPrefixOf (clean s) = true := by
  obtain ⟨t, ht⟩ := isPrefixOf_exists h
  rw [← ht, clean, List.filter_append]
  have hfix : ("AL001".toList).filter pyIsAlnum = "AL001".toList := by decide
  rw [hfix]
  exact isPrefixOf_append _ _

lemma longShape_length {r : List Char} (h : longShape r) : r.length = 22 := by
  obtain ⟨cat, num, sfx, hc, hn, _, hs, _, hr⟩ := h
  subst hr
  simp only [List.length_append, hc, hn, hs]
  decide

lemma defaultShape_length {r : List Char} (h : defaultShape r) : r.length = 17 := by
  obtain ⟨pfx, g1, g2, g3, hp, h1, _, h2, _, h3, _, hr⟩ := h
  subst hr
  simp only [List.length_append, hp, h1, h2, h3]
  decide

lemma longShape_core {cat ds : List Char} (hcat : cat.length = 3)
    (hds : ∀ x ∈ ds, pyIsDigit x = true) :
    longShape ("AL001/".toList ++ cat ++ "-".toList ++ ljust (ds.take 7) 7 '0' ++
      "/".toList ++ ljust ((ds.drop 7).take 4) 4 '0') := by
  refine ⟨cat, _, _, hcat, ?_, ?_, ?_, ?_, rfl⟩
  · exact ljust_take_length _ '0' (by omega)
  · intro c hc
    exact mem_ljust_digits (List.take_subset _ _) hds hc
  · exact ljust_take_length _ '0' (by omega)
  · intro c hc
    exact mem_ljust_digits
      (fun x hx => List.drop_subset _ _ (List.take_subset _ _ hx)) hds hc

lemma longShape_formatLong {cleaned : List Char}
    (h : ("AL001".toList.isPrefixOf cleaned || "STE".toList.isPrefixOf cleaned) = true) :
    longShape (formatLong cleaned) := by
  simp only [formatLong]
  by_cases hal : "AL001".toList.isPrefixOf cleaned = true
  · simp only [hal, if_true]
    by_cases hlen : 8 ≤ cleaned.length
    · simp only [hlen, if_true]
      refine longShape_core ?_ (filter_digits _)
      rw [List.length_take, List.length_drop]
      omega
    · simp only [hlen, if_false]
      exact longShape_core (by decide) (filter_digits _)
  · rw [Bool.not_eq_true] at hal
    simp only [hal, Bool.false_eq_true, if_false]
    have hste : "STE".toList.isPrefixOf cleaned = true := by
      rcases Bool.or_eq_true_iff.mp h with h' | h'
      · rw [hal] at h'
        exact absurd h' (by decide)
      · exact h'
    have hlen : 3 ≤ cleaned.length := isPrefixOf_length_le hste
    refine longShape_core ?_ (filter_digits _)
    rw [List.length_take]
    omega

lemma defaultShape_formatDefault (cleaned : List Char) :
    defaultShape (formatDefault cleaned) := by
  simp only [formatDefault]
  have hnum : (ljust ((cleaned.filter pyIsDigit).take 11) 11 '0').length = 11 :=
    ljust_take_length _ '0' (by omega)
  have hmem : ∀ c ∈ ljust ((cleaned.filter pyIsDigit).take 11) 11 '0',
      pyIsDigit c = true :=
    fun c hc => mem_ljust_digits (List.take_subset _ _) (filter_digits _) hc
  refine ⟨_, _, _, _, ?_, ?_, ?_, ?_, ?_, ?_, ?_, rfl⟩
  · exact ljust_take_length _ 'X' (by omega)
  · rw [List.length_take, hnum]
    decide
  · intro c hc
    exact hmem c (List.take_subset _ _ hc)
  · rw [List.length_take, List.length_drop, hnum]
    decide
  · intro c hc
    exact hmem c (List.drop_subset _ _ (List.take_subset _ _ hc))
  · rw [List.length_take, List.length_drop, hnum]
    decide
  · intro c hc
    exact hmem c (List.drop_subset _ _ (List.take_subset _ _ hc))

/-- C3: for every input string `format_card_id` returns a string
matching exactly one of the two fixed templates: the long form
`AL001/CCC-NNNNNNN/SSSS` (3-character category, exactly 7 digits,
exactly 4 digits) or the default form `CCC-NNNN NNNN NNN`
(3-character letter field, digit groups of 4, 4 and 3). -/
theorem c3_total_shape (s : List Char) :
    (longShape (format_card_id s) ∧ ¬ defaultShape (format_card_id s)) ∨
    (defaultShape (format_card_id s) ∧ ¬ longShape (format_card_id s)) := by
  by_cases hcond :
      ("AL001".toList.isPrefixOf (clean s) || "STE".toList.isPrefixOf (clean s)) = true
  · left
    have hl : longShape (format_card_id s) := by
      simp only [format_card_id, hcond, if_true]
      exact longShape_formatLong hcond
    refine ⟨hl, fun hd => ?_⟩
    have := longShape_length hl
    have := defaultShape_length hd
    omega
  · right
    have hd : defaultShape (format_card_id s) := by
      simp only [format_card_id, if_neg hcond]
      exact defaultShape_formatDefault (clean s)
    refine ⟨hd, fun hl => ?_⟩
    have := longShape_length hl
    have := defaultShape_length hd
    omega

/-! ## Claim theorems -/

/-- C5: for every identifier whose cleaned form starts with "AL001",
the output is `AL001/{category}-{numbers}/{suffix}` with category
`cleaned[5:8]` (or "XXX" when the cleaned string is shorter than 8),
numbers the first 7 digits of `cleaned[8:]` right-padded with '0' to 7,
and suffix digits 7..11 of that source right-padded with '0' to 4. -/
theorem c5_al001_family (s : List Char)
    (h : "AL001".toList.isPrefixOf (clean s) = true) :
    format_card_id s =
      "AL001/".toList ++
      (if 8 ≤ (clean s).length then ((clean s).drop 5).take 3 else "XXX".toList) ++
      "-".toList ++
      ljust ((((clean s).drop 8).filter pyIsDigit).take 7) 7 '0' ++
      "/".toList ++
      ljust (((((clean s).drop 8).filter pyIsDigit).drop 7).take 4) 4 '0' := by
  simp only [format_card_id, formatLong, h, Bool.true_or, if_true]

/-- Witness for `c5_al001_family` at the spec's own example input. -/
theorem c5_witness :
    ("AL001".toList.isPrefixOf (clean "AL0019997890012345".toList) = true) ∧
    format_card_id "AL0019997890012345".toList = "AL001/999-7890012/3450".toList :=
  ⟨by decide,
   (c5_al001_family "AL0019997890012345".toList (by decide)).trans (by decide)⟩

/-- C4: for every identifier whose cleaned form starts with "STE", the
emitted prefix is forced to "AL001", the category is the first 3
characters of the cleaned string, and the digits of `cleaned[3:]` are
truncated/zero-padded to 7 and 4. -/
theorem c4_ste_family (s : List Char)
    (h : "STE".toList.isPrefixOf (clean s) = true) :
    format_card_id s =
      "AL001/".toList ++ (clean s).take 3 ++ "-".toList ++
      ljust ((((clean s).drop 3).filter pyIsDigit).take 7) 7 '0' ++
      "/".toList ++
      ljust (((((clean s).drop 3).filter pyIsDigit).drop 7).take 4) 4 '0' := by
  obtain ⟨t, ht⟩ := isPrefixOf_exists h
  have hal : ("AL001".toList).isPrefixOf (clean s) = false := by
    rw [← ht]; rfl
  simp only [format_card_id, formatLong, h, hal, Bool.false_or, if_true,
    Bool.false_eq_true, if_false]

/-- Witness for `c4_ste_family`, proving the spec's example
`format_card_id("STE12345690123") = "AL001/STE-1234569/0123"`. -/
theorem c4_witness :
    ("STE".toList.isPrefixOf (clean "STE12345690123".toList) = true) ∧
    format_card_id "STE12345690123".toList = "AL001/STE-1234569/0123".toList :=
  ⟨by decide,
   (c4_ste_family "STE12345690123".toList (by decide)).trans (by decide)⟩

/-- C6: the empty identifier does not trigger the long-form family and
normalizes through the default family to `XXX-0000 0000 000`. -/
theorem c6_empty_input_default_family :
    (("AL001".toList.isPrefixOf (clean "".toList) ||
      "STE".toList.isPrefixOf (clean "".toList)) = false) ∧
    format_card_id "".toList = "XXX-0000 0000 000".toList := by
  constructor <;> decide

/-- C10: `format_card_id` depends only on the alphanumeric characters
of its input, so inserting or deleting non-alphanumeric characters
never changes the output. -/
theorem c10_clean_invariance (s : List Char) :
    format_card_id s = format_card_id (clean s) := by
  simp only [format_card_id, clean_clean]

lemma not_al001_raw_of_not_clean {card : List Char}
    (h : ("AL001".toList).isPrefixOf (clean card) = false) :
    ("AL001".toList).isPrefixOf card = false := by
  cases hc : ("AL001".toList).isPrefixOf card
  · rfl
  · rw [clean_of_al001 hc] at h
    exact absurd h (by decide)

/-- C7: for identifiers that do not trigger the long-form family (the
cleaned form starts with neither "AL001" nor "STE"), the display text
is `LETTERS SPACE DIGITS` when the original identifier is exactly 3
letters followed by 1+ digits, and the identifier unchanged
otherwise. -/
theorem c7_display_non_long_form (card : List Char)
    (h1 : "AL001".toList.isPrefixOf (clean card) = false)
    (_h2 : "STE".toList.isPrefixOf (clean card) = false) :
    resolveDisplayText card =
      if lettersDigitsMatch card = true then
        card.take 3 ++ " ".toList ++ card.drop 3
      else card := by
  have hraw := not_al001_raw_of_not_clean h1
  simp only [resolveDisplayText, hraw, Bool.false_eq_true, if_false]

/-- Witness for `c7_display_non_long_form`: the spec's example
`"ABC123"` is displayed as `"ABC 123"`. -/
theorem c7_witness :
    ("AL001".toList.isPrefixOf (clean "ABC123".toList) = false) ∧
    ("STE".toList.isPrefixOf (clean "ABC123".toList) = false) ∧
    resolveDisplayText "ABC123".toList =
      (if lettersDigitsMatch "ABC123".toList = true then
        "ABC123".toList.take 3 ++ " ".toList ++ "ABC123".toList.drop 3
      else "ABC123".toList) ∧
    resolveDisplayText "ABC123".toList = "ABC 123".toList :=
  ⟨by decide, by decide,
   c7_display_non_long_form "ABC123".toList (by decide) (by decide),
   by decide⟩

/-- C1 as stated is FALSE on the code: the display logic of src/app.py
line 194 tests the raw (stripped) identifier for the "AL001" prefix
only, so an identifier whose cleaned form begins with "STE" does not
delegate to `format_card_id`; it is displayed as "STE 12345690123"
instead of the Normalizer output "AL001/STE-1234569/0123". -/
theorem c1_counterexample :
    ("STE".toList.isPrefixOf (clean (pyStrip "STE12345690123".toList)) = true) ∧
    processRow envOk 0 ⟨"John Doe".toList, "STE12345690123".toList, none⟩ =
      .ok (⟨"John_Doe_STE12345690123.png".toList, "STE 12345690123".toList,
        "John Doe".toList⟩, []) ∧
    format_card_id (pyStrip "STE12345690123".toList) =
      "AL001/STE-1234569/0123".toList ∧
    ("STE 12345690123".toList ≠ "AL001/STE-1234569/0123".toList) :=
  ⟨by decide, by rfl, by decide, by decide⟩

/-- C1 amended: the display text drawn on the rendered card equals the
Identifier Normalizer's output exactly when the raw (stripped)
identifier itself begins with "AL001"; identifiers that enter the
long-form family only after cleaning (a "STE" carrier code, or an
"AL001" prefix interrupted by separators) take the letters/digits
split or pass-through path instead. -/
theorem c1_amended_display_delegation (env : Env) (i : Nat) (row : Row)
    (a : Artifact) (logs : List LogEntry)
    (hp : "AL001".toList.isPrefixOf (pyStrip row.card) = true)
    (hr : processRow env i row = .ok (a, logs)) :
    a.displayText = format_card_id (pyStrip row.card) := by
  simp only [processRow] at hr
  split at hr
  · simp only [Except.ok.injEq, Prod.mk.injEq] at hr
    obtain ⟨ha, -⟩ := hr
    rw [← ha]
    simp only [resolveDisplayText, hp, if_true]
  · exact absurd hr (by simp)

/-- Witness for `c1_amended_display_delegation` at a concrete row whose
raw card value starts with "AL001". -/
theorem c1_amended_witness :
    ("AL001".toList.isPrefixOf (pyStrip "AL0019997890012345".toList) = true) ∧
    (Artifact.mk "John_Doe_AL0019997890012345.png".toList
      "AL001/999-7890012/3450".toList "John Doe".toList).displayText =
      format_card_id (pyStrip "AL0019997890012345".toList) :=
  ⟨by decide,
   c1_amended_display_delegation envOk 0
     ⟨"John Doe".toList, "AL0019997890012345".toList, none⟩
     (Artifact.mk "John_Doe_AL0019997890012345.png".toList
       "AL001/999-7890012/3450".toList "John Doe".toList) []
     (by decide) (by rfl)⟩

/-- C2 is FALSE on the code as written: `generate_cards_from_df` has no
try/except around the per-row image work, so a rendering failure for
row 0 propagates and aborts the whole batch, even though row 1 on its
own would render fine (second conjunct); no artifact for any later row
is produced.  The spec itself flags that the reference behavior does
not enforce the required per-row isolation for rendering errors. -/
theorem c2_render_failure_aborts_batch :
    generate_cards_from_df envRow0Fails
      [⟨"Alice".toList, "ABC123".toList, none⟩,
       ⟨"Bob".toList, "XYZ789".toList, none⟩] = .error ⟨0⟩ ∧
    processRow envRow0Fails 1 ⟨"Bob".toList, "XYZ789".toList, none⟩ =
      .ok (⟨"Bob_XYZ789.png".toList, "XYZ 789".toList, "Bob".toList⟩, []) :=
  ⟨by rfl, by rfl⟩

lemma processRow_map_fst {env env' : Env} (h : env.renderOk = env'.renderOk)
    (i : Nat) (r : Row) :
    (processRow env i r).map Prod.fst = (processRow env' i r).map Prod.fst := by
  simp only [processRow, h]
  cases env'.renderOk i <;> simp [Except.map]

lemma generateGo_artifacts {env env' : Env} (h : env.renderOk = env'.renderOk)
    (i : Nat) (rows : List Row) :
    (generateGo env i rows).map Prod.fst = (generateGo env' i rows).map Prod.fst := by
  induction rows generalizing i with
  | nil => rfl
  | cons r rs ih =>
    have hp := processRow_map_fst h i r
    have hg := ih (i + 1)
    simp only [generateGo]
    cases hpe : processRow env i r with
    | error e =>
      cases hpe' : processRow env' i r with
      | error e' =>
        rw [hpe, hpe'] at hp
        simp only [Except.map, Except.error.injEq] at hp
        subst hp
        rfl
      | ok p' =>
        rw [hpe, hpe'] at hp
        simp [Except.map] at hp
    | ok p =>
      cases hpe' : processRow env' i r with
      | error e' =>
        rw [hpe, hpe'] at hp
        simp [Except.map] at hp
      | ok p' =>
        rw [hpe, hpe'] at hp
        simp only [Except.map, Except.ok.injEq] at hp
        obtain ⟨a, logs⟩ := p
        obtain ⟨a', logs'⟩ := p'
        simp only at hp
        subst hp
        cases hge : generateGo env (i + 1) rs with
        | error e =>
          cases hge' : generateGo env' (i + 1) rs with
          | error e' =>
            rw [hge, hge'] at hg
            simp only [Except.map, Except.error.injEq] at hg
            subst hg
            rfl
          | ok q' =>
            rw [hge, hge'] at hg
            simp [Except.map] at hg
        | ok q =>
          cases hge' : generateGo env' (i + 1) rs with
          | error e' =>
            rw [hge, hge'] at hg
            simp [Except.map] at hg
          | ok q' =>
            rw [hge, hge'] at hg
            simp only [Except.map, Except.ok.injEq] at hg
            obtain ⟨arts, ls⟩ := q
            obtain ⟨arts', ls'⟩ := q'
            simp only at hg
            subst hg
            simp [Except.map]

/-- C8: SMTP failures are swallowed inside the notification sink and
never reach the batch pipeline: the artifacts of a batch are the same
under any two environments that agree on rendering outcomes, whatever
the SMTP results are, so every row's card artifact is produced exactly
as if all notifications succeeded; moreover a failed send is recorded
as an error log entry. -/
theorem c8_notification_isolated (env env' : Env) (rows : List Row)
    (h : env.renderOk = env'.renderOk) :
    artifactsOf (generate_cards_from_df env rows) =
      artifactsOf (generate_cards_from_df env' rows) ∧
    ∀ (e dest : List Char),
      send_email_with_attachment (.error e) dest =
        [⟨true, "SMTP send failed: ".toList ++ e⟩] :=
  ⟨generateGo_artifacts h 0 rows, fun _ _ => rfl⟩

/-- Witness for `c8_notification_isolated`: a one-row batch with an
email address produces the same artifact whether the SMTP session
succeeds or raises. -/
theorem c8_witness :
    (envOk.renderOk = envSmtpFail.renderOk) ∧
    (artifactsOf (generate_cards_from_df envOk
        [⟨"Jane".toList, "CII98765".toList, some "jane@example.com".toList⟩]) =
      artifactsOf (generate_cards_from_df envSmtpFail
        [⟨"Jane".toList, "CII98765".toList, some "jane@example.com".toList⟩]) ∧
    ∀ (e dest : List Char),
      send_email_with_attachment (.error e) dest =
        [⟨true, "SMTP send failed: ".toList ++ e⟩]) :=
  ⟨rfl, c8_notification_isolated envOk envSmtpFail
    [⟨"Jane".toList, "CII98765".toList, some "jane@example.com".toList⟩] rfl⟩

lemma sanitize_length_le (s : List Char) : (sanitize_filename s).length ≤ 100 := by
  simp only [sanitize_filename, List.length_take]
  omega

lemma sanitize_mem {c : Char} {s : List Char} (h : c ∈ sanitize_filename s) :
    badFilenameChar c = false ∧ c ≠ ' ' ∧ (c = '_' ∨ c ∈ s) := by
  simp only [sanitize_filename] at h
  have h1 := List.take_subset _ _ h
  obtain ⟨hmem, hgood⟩ := List.mem_filter.mp h1
  obtain ⟨d, hd, hcd⟩ := List.mem_map.mp hmem
  refine ⟨by simpa using hgood, ?_, ?_⟩
  · by_cases hdc : d = ' '
    · subst hdc
      simp only [if_pos rfl] at hcd
      subst hcd
      decide
    · simp only [if_neg hdc] at hcd
      subst hcd
      exact hdc
  · by_cases hdc : d = ' '
    · subst hdc
      simp only [if_pos rfl] at hcd
      exact .inl hcd.symm
    · simp only [if_neg hdc] at hcd
      subst hcd
      exact .inr hd

/-- C9: every saved artifact is named
`{sanitize(Name)}_{sanitize(Card)}.png` and therefore ends in ".png";
`sanitize_filename` truncates to at most 100 characters, and each of
its output characters is either the underscore substituted for a
space or an unchanged (case-preserved) input character that is not a
space, a newline or one of `\\ / * ? : " < > |`. -/
theorem c9_filename_contract (env : Env) (i : Nat) (row : Row)
    (a : Artifact) (logs : List LogEntry)
    (hr : processRow env i row = .ok (a, logs)) :
    a.filename = sanitize_filename row.name ++ "_".toList ++
      sanitize_filename (pyStrip row.card) ++ ".png".toList ∧
    (∃ t, a.filename = t ++ ".png".toList) ∧
    ∀ s : List Char, (sanitize_filename s).length ≤ 100 ∧
      ∀ c ∈ sanitize_filename s,
        badFilenameChar c = false ∧ c ≠ ' ' ∧ (c = '_' ∨ c ∈ s) := by
  simp only [processRow] at hr
  split at hr
  · simp only [Except.ok.injEq, Prod.mk.injEq] at hr
    obtain ⟨ha, -⟩ := hr
    rw [← ha]
    refine ⟨rfl, ⟨sanitize_filename row.name ++ "_".toList ++
      sanitize_filename (pyStrip row.card), by simp⟩,
      fun s => ⟨sanitize_length_le s, fun c hc => sanitize_mem hc⟩⟩
  · exact absurd hr (by simp)

/-- Witness for `c9_filename_contract` at a concrete row. -/
theorem c9_witness :
    ((Artifact.mk "Jo_AB1.png".toList "AB1".toList "Jo".toList).filename =
      sanitize_filename "Jo".toList ++ "_".toList ++
      sanitize_filename (pyStrip "AB1".toList) ++ ".png".toList ∧
    (∃ t, (Artifact.mk "Jo_AB1.png".toList "AB1".toList "Jo".toList).filename =
      t ++ ".png".toList) ∧
    ∀ s : List Char, (sanitize_filename s).length ≤ 100 ∧
      ∀ c ∈ sanitize_filename s,
        badFilenameChar c = false ∧ c ≠ ' ' ∧ (c = '_' ∨ c ∈ s)) :=
  c9_filename_contract envOk 0 ⟨"Jo".toList, "AB1".toList, none⟩
    (Artifact.mk "Jo_AB1.png".toList "AB1".toList "Jo".toList) [] (by rfl)
